import Mathlib

/-!
Shallow embedding of the decision-engine / simulated-portfolio /
risk-management core of the trading bot, with theorems checking the
specification's claims against it.

Conventions of the embedding:
- Python floats are modelled as exact rationals (`ℚ`).
- The symbol-keyed dictionaries (`self.positions`, the per-cycle market-data
  cache) are modelled as association lists.
- Timestamps produced by `datetime.now()` are threaded in as an external
  `now : Nat` argument.
- Writing the state file and appending to the trade log are modelled as the
  `equity_history` and `trade_log` components of the state: the state value
  is the durable content.
-/

namespace TradingBot

/-- Embeds the per-symbol position dict created by
`SimulatedPortfolio._open_position` (src/simulation.py).  The source dict is
created without a `highest_pnl_pct` key and no statement in the repository
ever writes that key; every read goes through `.get('highest_pnl_pct', 0.0)`,
so the field here records the value such a read returns (0 for freshly opened
positions, arbitrary for positions loaded from a legacy state file). -/
structure Position where
  side : String
  entry_price : ℚ
  current_price : ℚ
  quantity : ℚ
  leverage : Nat
  margin : ℚ
  unrealized_pnl : ℚ
  atr_at_entry : ℚ
  highest_pnl_pct : ℚ
deriving DecidableEq

/-- Embeds the structured dicts passed to `log_trade` by `_open_position` and
`_close_position` (src/simulation.py); the close event carries the realized
PnL and the PnL-on-margin percentage. -/
inductive LogEvent where
  | openTrade (symbol reason side : String) (quantity : ℚ) (leverage : Nat)
      (margin entry_price : ℚ)
  | closeTrade (symbol reason side : String) (quantity : ℚ) (leverage : Nat)
      (margin entry_price exit_price pnl_usd pnl_pct : ℚ)
deriving DecidableEq

/-- Embeds the mutable state of `SimulatedPortfolio` (src/simulation.py)
together with its two persistence sinks. -/
structure SimState where
  balance : ℚ
  positions : List (String × Position)
  equity_history : List (Nat × ℚ)
  trade_log : List LogEvent
deriving DecidableEq

/-- Dictionary access `self.positions.get(symbol)`. -/
def lookupPos (symbol : String) : List (String × Position) → Option Position
  | [] => none
  | kv :: rest => if kv.1 = symbol then some kv.2 else lookupPos symbol rest

/-- Dictionary access `market_data_cache.get(symbol)`, reduced to the
`current_price` entry the portfolio code reads from a cached summary. -/
def lookupPrice (symbol : String) : List (String × ℚ) → Option ℚ
  | [] => none
  | kv :: rest => if kv.1 = symbol then some kv.2 else lookupPrice symbol rest

/-- Embeds `SimulatedPortfolio._calculate_pnl` (src/simulation.py lines
187-196): price difference against entry, negated when the stored side is
the string `sell`, times quantity. -/
def calcPnl (position : Position) (current_price : ℚ) : ℚ :=
  let price_diff := current_price - position.entry_price
  (if position.side = "sell" then -price_diff else price_diff) * position.quantity

/-- Sum of committed margins, as in `get_portfolio_summary`. -/
def totalMargin (st : SimState) : ℚ :=
  (st.positions.map (fun kv => kv.2.margin)).sum

/-- Sum of unrealized PnL, as in `get_portfolio_summary`. -/
def totalUnrealizedPnl (st : SimState) : ℚ :=
  (st.positions.map (fun kv => kv.2.unrealized_pnl)).sum

/-- Embeds the `total_equity_usd` value of `get_portfolio_summary`
(src/simulation.py lines 76-90): balance + total margin + total
unrealized PnL. -/
def totalEquity (st : SimState) : ℚ :=
  st.balance + totalMargin st + totalUnrealizedPnl st

/-- The `max_history_points` constant of `_save_state`. -/
def maxHistoryPoints : Nat := 1440

/-- Embeds `SimulatedPortfolio._save_state` (src/simulation.py lines 40-62):
append one (timestamp, equity) sample, then keep only the last
`maxHistoryPoints` entries, then write the state. -/
def saveState (st : SimState) (now : Nat) : SimState :=
  let h := st.equity_history ++ [(now, totalEquity st)]
  { st with equity_history :=
      if maxHistoryPoints < h.length then h.drop (h.length - maxHistoryPoints) else h }

/-- Embeds `SimulatedPortfolio._open_position` (src/simulation.py lines
114-151): no-op when a position already exists for the symbol or when the
balance is below the requested margin; otherwise debit the margin, create
the position (with `unrealized_pnl = 0` and no trailing watermark, read back
as 0), persist, and append an open event to the trade log. -/
def openPosition (st : SimState) (symbol side : String) (quantity price : ℚ)
    (leverage : Nat) (trade_amount_usd : ℚ) (reason : String) (atr : ℚ)
    (now : Nat) : SimState :=
  match lookupPos symbol st.positions with
  | some _ => st
  | none =>
    let margin_used := trade_amount_usd
    if st.balance < margin_used then st
    else
      let pos : Position :=
        { side := side, entry_price := price, current_price := price,
          quantity := quantity, leverage := leverage, margin := margin_used,
          unrealized_pnl := 0, atr_at_entry := atr, highest_pnl_pct := 0 }
      let st1 : SimState :=
        { st with balance := st.balance - margin_used,
                  positions := (symbol, pos) :: st.positions }
      let st2 := saveState st1 now
      { st2 with trade_log := st2.trade_log ++
          [LogEvent.openTrade symbol reason side quantity leverage margin_used price] }

/-- Deletion `del self.positions[symbol]`, on the association-list model. -/
def erasePos (symbol : String) (ps : List (String × Position)) :
    List (String × Position) :=
  ps.filter (fun kv => decide (kv.1 ≠ symbol))

/-- Embeds `SimulatedPortfolio._close_position` (src/simulation.py lines
154-185): no-op when no position exists for the symbol; otherwise credit
balance by margin + realized PnL, append a close event carrying the PnL and
the PnL-on-margin percentage, delete the position, and persist. -/
def closePosition (st : SimState) (symbol : String) (price : ℚ)
    (reason : String) (now : Nat) : SimState :=
  match lookupPos symbol st.positions with
  | none => st
  | some position =>
    let pnl := calcPnl position price
    let margin_returned := position.margin
    let pnl_pct := if 0 < position.margin then pnl / position.margin * 100 else 0
    let st1 : SimState := { st with balance := st.balance + margin_returned + pnl }
    let st2 : SimState := { st1 with trade_log := st1.trade_log ++
        [LogEvent.closeTrade symbol reason position.side position.quantity
          position.leverage position.margin position.entry_price price pnl pnl_pct] }
    let st3 : SimState := { st2 with positions := erasePos symbol st2.positions }
    saveState st3 now

/-- Embeds the per-position body of `SimulatedPortfolio.update_open_positions`
(src/simulation.py lines 198-232): a cached truthy price overwrites
`current_price` and recomputes `unrealized_pnl`; a missing cache entry, or a
cached price of 0 (falsy in Python), leaves the position unchanged. -/
def updPos (position : Position) (cached_price : Option ℚ) : Position :=
  match cached_price with
  | none => position
  | some price =>
    if price = 0 then position
    else { position with current_price := price,
                         unrealized_pnl := calcPnl position price }

/-- Embeds `SimulatedPortfolio.update_open_positions` at state level: every
open position is marked from the cache, and the state is persisted afterwards
even when there are no positions. -/
def update_open_positions (st : SimState) (cache : List (String × ℚ))
    (now : Nat) : SimState :=
  if st.positions = [] then saveState st now
  else
    saveState
      { st with positions :=
          st.positions.map (fun kv => (kv.1, updPos kv.2 (lookupPrice kv.1 cache))) }
      now

/-- Mark-to-market updates applied to one position over successive cycles of
its life: each list element is the cached price seen that cycle (`none` when
the symbol had no market data that cycle). -/
def applyMarks (position : Position) (marks : List (Option ℚ)) : Position :=
  marks.foldl updPos position

/-- Embeds the risk parameters `check_tp_sl` (src/worker.py) reads from
`config`.  The three trailing-stop names are referenced by the worker but
absent from the checked-in config.py, so all six are parameters here. -/
structure RiskConfig where
  takeProfitPct : ℚ
  enableTrailingStop : Bool
  trailingStopTriggerPct : ℚ
  trailingStopDistancePct : ℚ
  atrMultiplier : ℚ
  stopLossPct : ℚ
deriving DecidableEq

/-- Which exit rule of `check_tp_sl` fired. -/
inductive CloseRule where
  | takeProfit
  | trailingStop
  | staticAtr
  | fallback
deriving DecidableEq

/-- A close command issued by `check_tp_sl` through
`trade.parse_and_execute`, with its reason string. -/
structure CloseOrder where
  rule : CloseRule
  reason : String
deriving DecidableEq

/-- PnL-on-margin percentage, `(unrealized_pnl / margin) * 100`
(src/worker.py line 65). -/
def pnlPct (position : Position) : ℚ :=
  position.unrealized_pnl / position.margin * 100

/-- Reason string of the take-profit close (numeric float formatting of the
source replaced by the exact rational rendering). -/
def tpReason (pct : ℚ) : String :=
  "TAKE PROFIT triggered at " ++ toString pct ++ "%"

/-- Reason string of the trailing-stop close. -/
def trailReason (pct highest : ℚ) : String :=
  "TRAILING STOP LOSS triggered at " ++ toString pct ++ "%. (Highest: " ++
    toString highest ++ "%)"

/-- Reason string of the static ATR stop close. -/
def atrReason (price : ℚ) : String :=
  "DYNAMIC (ATR) STOP LOSS triggered at " ++ toString price

/-- Reason string of the fallback percentage stop close. -/
def fallbackReason (pct : ℚ) : String :=
  "FALLBACK STOP LOSS triggered at " ++ toString pct ++ "%"

/-- Embeds the per-position body of `check_tp_sl` (src/worker.py lines
50-137): skip positions with zero margin or zero entry price; then
take-profit first, then the trailing stop when armed (trailing enabled and
the stored watermark at or above the trigger), then — only when the trailing
stop is not armed — the static ATR stop, or the fallback percentage stop when
`atr_at_entry` is 0.  Returns the close order issued, if any. -/
def checkPosition (cfg : RiskConfig) (p : Position) : Option CloseOrder :=
  if p.margin = 0 ∨ p.entry_price = 0 then none
  else
    let pct := p.unrealized_pnl / p.margin * 100
    if cfg.takeProfitPct ≤ pct then
      some ⟨CloseRule.takeProfit, tpReason pct⟩
    else if (cfg.enableTrailingStop ∧ cfg.trailingStopTriggerPct ≤ p.highest_pnl_pct) ∧
        pct ≤ p.highest_pnl_pct - cfg.trailingStopDistancePct then
      some ⟨CloseRule.trailingStop, trailReason pct p.highest_pnl_pct⟩
    else if ¬ (cfg.enableTrailingStop ∧ cfg.trailingStopTriggerPct ≤ p.highest_pnl_pct) then
      if 0 < p.atr_at_entry then
        if p.side = "long" ∨ p.side = "buy" then
          if p.current_price ≤ p.entry_price - p.atr_at_entry * cfg.atrMultiplier then
            some ⟨CloseRule.staticAtr, atrReason p.current_price⟩
          else none
        else if p.side = "short" ∨ p.side = "sell" then
          if p.entry_price + p.atr_at_entry * cfg.atrMultiplier ≤ p.current_price then
            some ⟨CloseRule.staticAtr, atrReason p.current_price⟩
          else none
        else none
      else
        if pct ≤ -cfg.stopLossPct then
          some ⟨CloseRule.fallback, fallbackReason pct⟩
        else none
    else none

/-- Embeds the fields of a per-symbol market summary that `decide_action`
(src/engine.py) reads. -/
structure MarketData where
  current_price : ℚ
  ema_200 : ℚ
  rsi_14 : ℚ
  adx_14 : ℚ
  bollinger_lower : ℚ
  bollinger_upper : ℚ
  volume : ℚ
  volume_sma_20 : ℚ
deriving DecidableEq

/-- Embeds the decision dict returned by `decide_action` (src/engine.py). -/
structure Decision where
  command : String
  reasoning : String
  trade_amount_usd : ℚ
deriving DecidableEq

/-- Filter toggle `use_ema_trend_filter` of `DEFAULT_STRATEGY` (src/engine.py). -/
def useEmaTrendFilter : Bool := true

/-- Filter toggle `use_rsi_pullback` of `DEFAULT_STRATEGY`. -/
def useRsiPullback : Bool := true

/-- Filter toggle `use_volume_confirmation` of `DEFAULT_STRATEGY`. -/
def useVolumeConfirmation : Bool := true

/-- Threshold `long_conditions.rsi_exit_extreme` of `DEFAULT_STRATEGY`. -/
def rsiExitExtremeLong : ℚ := 75

/-- Threshold `long_conditions.rsi_entry_min` of `DEFAULT_STRATEGY`. -/
def rsiEntryMinLong : ℚ := 30

/-- Threshold `long_conditions.rsi_entry_max` of `DEFAULT_STRATEGY`. -/
def rsiEntryMaxLong : ℚ := 50

/-- Threshold `short_conditions.rsi_exit_extreme` of `DEFAULT_STRATEGY`. -/
def rsiExitExtremeShort : ℚ := 25

/-- Threshold `short_conditions.rsi_entry_min` of `DEFAULT_STRATEGY`. -/
def rsiEntryMinShort : ℚ := 50

/-- Threshold `short_conditions.rsi_entry_max` of `DEFAULT_STRATEGY`. -/
def rsiEntryMaxShort : ℚ := 70

/-- Parameter `trade_parameters.default_leverage` of `DEFAULT_STRATEGY`. -/
def engineDefaultLeverage : Nat := 20

/-- Parameter `trade_parameters.trade_amount_pct_of_balance` of
`DEFAULT_STRATEGY`. -/
def engineTradeAmountPct : ℚ := 10

/-- Hold decision (command, reasoning, zero trade amount). -/
def holdD (reasoning : String) : Decision := ⟨"hold", reasoning, 0⟩

/-- Close decision (command, reasoning, zero trade amount). -/
def closeD (reasoning : String) : Decision := ⟨"close", reasoning, 0⟩

/-- Entry command string `f"long {leverage}x"` / `f"short {leverage}x"`. -/
def entryCommand (dir : String) : String :=
  dir ++ " " ++ toString engineDefaultLeverage ++ "x"

/-- Trade size `balance * (trade_pct / 100)` used for each entry branch. -/
def entryAmount (available_balance : ℚ) : ℚ :=
  available_balance * (engineTradeAmountPct / 100)

/-- Embeds `decide_action` (src/engine.py lines 29-148).  The function reads
the module-level `DEFAULT_STRATEGY` (line 56), embedded in the constants
above.  `ADX_RANGE_THRESHOLD` and `ADX_TREND_THRESHOLD` are imported from
`config` but missing from the checked-in config.py, so they are parameters.
Reasoning strings keep the fixed text of the source f-strings, dropping the
interpolated numeric values. -/
def decide_action (adxRangeThreshold adxTrendThreshold : ℚ) (m : MarketData)
    (position_side : String) (available_balance : ℚ) (cooldown_status : Bool) :
    Decision :=
  if position_side ≠ "flat" then
    if useEmaTrendFilter ∧ (position_side = "long" ∨ position_side = "buy") ∧
        m.current_price < m.ema_200 then
      closeD "Closing long: Trend reversed (price < EMA200)."
    else if useEmaTrendFilter ∧ (position_side = "short" ∨ position_side = "sell") ∧
        m.ema_200 < m.current_price then
      closeD "Closing short: Trend reversed (price > EMA200)."
    else if useRsiPullback ∧ (position_side = "long" ∨ position_side = "buy") ∧
        rsiExitExtremeLong < m.rsi_14 then
      closeD "Closing long: RSI overbought."
    else if useRsiPullback ∧ (position_side = "short" ∨ position_side = "sell") ∧
        m.rsi_14 < rsiExitExtremeShort then
      closeD "Closing short: RSI oversold."
    else
      holdD ("Holding existing " ++ position_side ++ " position.")
  else if cooldown_status then
    holdD "Cooldown active after a recent loss."
  else if m.adx_14 < adxRangeThreshold then
    if m.ema_200 < m.current_price ∧ m.current_price ≤ m.bollinger_lower then
      ⟨entryCommand "long",
        "Mean Reversion LONG: Main trend is Bullish, but price hit Lower Bollinger Band. Expecting bounce.",
        entryAmount available_balance⟩
    else if m.current_price < m.ema_200 ∧ m.bollinger_upper ≤ m.current_price then
      ⟨entryCommand "short",
        "Mean Reversion SHORT: Main trend is Bearish, but price hit Upper Bollinger Band. Expecting drop.",
        entryAmount available_balance⟩
    else
      holdD "Ranging market, but no mean reversion signal."
  else if adxTrendThreshold < m.adx_14 then
    if m.ema_200 < m.current_price ∧
        (rsiEntryMinLong < m.rsi_14 ∧ m.rsi_14 < rsiEntryMaxLong) ∧
        (useVolumeConfirmation → m.volume_sma_20 < m.volume) then
      ⟨entryCommand "long",
        "Trend Pullback LONG: ADX high, RSI in pullback zone, and Volume confirmed.",
        entryAmount available_balance⟩
    else if m.current_price < m.ema_200 ∧
        (rsiEntryMinShort < m.rsi_14 ∧ m.rsi_14 < rsiEntryMaxShort) ∧
        (useVolumeConfirmation → m.volume_sma_20 < m.volume) then
      ⟨entryCommand "short",
        "Trend Pullback SHORT: ADX high, RSI in pullback zone, and Volume confirmed.",
        entryAmount available_balance⟩
    else
      holdD "Trending market, but no pullback signal."
  else
    holdD "Indecisive market condition (ADX is between the range and trend thresholds)."

/-- Numeric value of an ASCII digit character. -/
def digitVal (c : Char) : Nat := c.toNat - 48

/-- Embeds the scan performed by `re.search` for a digit run followed by the
character `x` in `parse_and_execute` (src/trade.py line 55): returns the
value of the leftmost maximal digit run immediately followed by `x`, if any.
The accumulator holds the digit run currently being read. -/
def findLeverageAux (acc : Option Nat) : List Char → Option Nat
  | [] => none
  | c :: rest =>
    if c.isDigit then
      findLeverageAux (some (10 * acc.getD 0 + digitVal c)) rest
    else if c = 'x' then
      match acc with
      | some n => some n
      | none => findLeverageAux none rest
    else findLeverageAux none rest

/-- Leverage parsed from a command string, if the pattern matched. -/
def findLeverage (command : String) : Option Nat :=
  findLeverageAux none command.data

/-- Embeds the leverage computation of `parse_and_execute` (src/trade.py
lines 53-58): default 20 when the command has no digit-run-plus-`x` group; a
parsed value is clamped to the interval [5, 25].  The result is the leverage
placed in the executor params and used for the order quantity. -/
def parseLeverage (command : String) : Nat :=
  match findLeverage command with
  | none => 20
  | some l => max 5 (min 25 l)

/-- A hardcoded [min, max] bound of the strategist's safety table. -/
structure Limits where
  lo : ℚ
  hi : ℚ
deriving DecidableEq

/-- Embeds `VALIDATION_LIMITS` (src/strategist.py lines 16-25). -/
structure ValidationBounds where
  default_leverage : Limits
  trade_amount_pct_of_balance : Limits
  rsi_long_entry_min : Limits
  rsi_long_entry_max : Limits
  rsi_exit_extreme_long : Limits
  rsi_short_entry_min : Limits
  rsi_short_entry_max : Limits
  rsi_exit_extreme_short : Limits
deriving DecidableEq

/-- The concrete bound table of src/strategist.py. -/
def VALIDATION_LIMITS : ValidationBounds :=
  { default_leverage := ⟨1, 75⟩,
    trade_amount_pct_of_balance := ⟨1, 50⟩,
    rsi_long_entry_min := ⟨5, 45⟩,
    rsi_long_entry_max := ⟨50, 70⟩,
    rsi_exit_extreme_long := ⟨65, 95⟩,
    rsi_short_entry_min := ⟨30, 50⟩,
    rsi_short_entry_max := ⟨55, 95⟩,
    rsi_exit_extreme_short := ⟨5, 35⟩ }

/-- The `trade_parameters` object of a proposed strategy document; a missing
field reads as `none`, as `.get` does in `validate_strategy`. -/
structure TradeParameters where
  default_leverage : Option ℚ
  trade_amount_pct_of_balance : Option ℚ
deriving DecidableEq

/-- The `long_conditions` / `short_conditions` object of a proposed strategy
document. -/
structure SideConditions where
  rsi_entry_min : Option ℚ
  rsi_entry_max : Option ℚ
  rsi_exit_extreme : Option ℚ
deriving DecidableEq

/-- Embeds a strategy JSON document: the eight numeric parameters
`validate_strategy` extracts, plus an opaque remainder standing for every
other field of the document (strategy_name, comment, filters, ...), which
participates in the whole-document equality comparison of
`run_strategist_cycle`. -/
structure StrategyDoc where
  trade_parameters : TradeParameters
  long_conditions : SideConditions
  short_conditions : SideConditions
  rest : String
deriving DecidableEq

/-- One parameter check of `validate_strategy`: present and inside its
bound. -/
def paramOk (v : Option ℚ) (lim : Limits) : Bool :=
  match v with
  | none => false
  | some x => decide (lim.lo ≤ x ∧ x ≤ lim.hi)

/-- Embeds `validate_strategy` (src/strategist.py lines 80-113): every one of
the eight required parameters must be present and inside its hardcoded
bound. -/
def validate_strategy (s : StrategyDoc) : Bool :=
  paramOk s.trade_parameters.default_leverage VALIDATION_LIMITS.default_leverage &&
  paramOk s.trade_parameters.trade_amount_pct_of_balance
    VALIDATION_LIMITS.trade_amount_pct_of_balance &&
  paramOk s.long_conditions.rsi_entry_min VALIDATION_LIMITS.rsi_long_entry_min &&
  paramOk s.long_conditions.rsi_entry_max VALIDATION_LIMITS.rsi_long_entry_max &&
  paramOk s.long_conditions.rsi_exit_extreme VALIDATION_LIMITS.rsi_exit_extreme_long &&
  paramOk s.short_conditions.rsi_entry_min VALIDATION_LIMITS.rsi_short_entry_min &&
  paramOk s.short_conditions.rsi_entry_max VALIDATION_LIMITS.rsi_short_entry_max &&
  paramOk s.short_conditions.rsi_exit_extreme VALIDATION_LIMITS.rsi_exit_extreme_short

/-- Embeds the validate-and-update step of `run_strategist_cycle`
(src/strategist.py lines 182-189): the authoritative strategy file content
after the cycle — an identical proposal is kept as-is, a different proposal is
written only when it passes validation, and otherwise the prior document
remains. -/
def applyStrategistUpdate (current proposal : StrategyDoc) : StrategyDoc :=
  if proposal = current then current
  else if validate_strategy proposal then proposal
  else current

/-- The strategy parameters of the spec-modelled consolidated engine
(spec sections 4.1 and 6). -/
structure SpecStrategy where
  no_trade_zone_pct : ℚ
  rsi_long_entry_min : ℚ
  rsi_long_entry_max : ℚ
  rsi_short_entry_min : ℚ
  rsi_short_entry_max : ℚ
  use_volume_confirmation : Bool
  default_leverage : Nat
  trade_amount_pct_of_balance : ℚ
deriving DecidableEq

/-- The market snapshot of the spec-modelled engine (spec section 3). -/
structure SpecSnapshot where
  current_price : ℚ
  trend_average : ℚ
  oscillator : ℚ
  volume : ℚ
  volume_baseline : ℚ
deriving DecidableEq

/-- Modelled from the spec: the Decision Engine variant carrying the
no-trade-zone gate.  The `decide_action(strategy, ...)` function that
src/worker.py invokes (with a `strategy` argument) and that src/test.py
exercises with a `no_trade_zone_pct` filter is not among the checked-in
sources; only src/engine.py, a variant without the gate, is.  This definition
follows the flat-state gate sequence of spec section 4.1 in its stated order:
cooldown gate, no-trade-zone gate (price within a configured fractional band
of the trend average), trend classification (exact equality holds), pullback
zone (open interval, per spec section 9), volume confirmation, entry.  The
in-position branch is the spec's trend-reversal close, exhaustion left to the
reversal reason, then hold. -/
def decideActionSpec (strategy : SpecStrategy) (snap : SpecSnapshot)
    (position_side : String) (available_balance : ℚ) (cooldown_active : Bool) :
    Decision :=
  if position_side ≠ "flat" then
    if (position_side = "long" ∨ position_side = "buy") ∧
        snap.current_price < snap.trend_average then
      closeD "Trend reversal against long position."
    else if (position_side = "short" ∨ position_side = "sell") ∧
        snap.trend_average < snap.current_price then
      closeD "Trend reversal against short position."
    else
      holdD "Holding existing position."
  else if cooldown_active then
    holdD "Cooldown gate: entries suppressed."
  else if abs (snap.current_price - snap.trend_average) / snap.trend_average <
      strategy.no_trade_zone_pct then
    holdD "No-trade zone: price within the configured band of the trend average."
  else if snap.trend_average < snap.current_price then
    if strategy.rsi_long_entry_min < snap.oscillator ∧
        snap.oscillator < strategy.rsi_long_entry_max then
      if strategy.use_volume_confirmation → snap.volume_baseline < snap.volume then
        ⟨"long " ++ toString strategy.default_leverage ++ "x",
          "Pullback zone and volume confirmed in bullish trend.",
          available_balance * (strategy.trade_amount_pct_of_balance / 100)⟩
      else
        holdD "Volume confirmation gate failed."
    else
      holdD "Pullback zone gate failed."
  else if snap.current_price < snap.trend_average then
    if strategy.rsi_short_entry_min < snap.oscillator ∧
        snap.oscillator < strategy.rsi_short_entry_max then
      if strategy.use_volume_confirmation → snap.volume_baseline < snap.volume then
        ⟨"short " ++ toString strategy.default_leverage ++ "x",
          "Pullback zone and volume confirmed in bearish trend.",
          available_balance * (strategy.trade_amount_pct_of_balance / 100)⟩
      else
        holdD "Volume confirmation gate failed."
    else
      holdD "Pullback zone gate failed."
  else
    holdD "Price exactly equal to the trend average."

/-! Helper lemmas shared by the claim theorems. -/

/-- Mark-to-market never touches the trailing watermark field. -/
theorem updPos_highest (p : Position) (mp : Option ℚ) :
    (updPos p mp).highest_pnl_pct = p.highest_pnl_pct := by
  cases mp with
  | none => rfl
  | some price =>
    by_cases h : price = 0 <;> simp [updPos, h]

/-- Mark-to-market never touches the margin field. -/
theorem updPos_margin (p : Position) (mp : Option ℚ) :
    (updPos p mp).margin = p.margin := by
  cases mp with
  | none => rfl
  | some price =>
    by_cases h : price = 0 <;> simp [updPos, h]

/-- Over a whole position lifetime of mark-to-market updates the trailing
watermark is unchanged. -/
theorem applyMarks_highest (p : Position) (marks : List (Option ℚ)) :
    (applyMarks p marks).highest_pnl_pct = p.highest_pnl_pct := by
  induction marks generalizing p with
  | nil => rfl
  | cons m ms ih =>
    show (applyMarks (updPos p m) ms).highest_pnl_pct = _
    rw [ih, updPos_highest]

/-- Deleting a symbol's entry removes it from dictionary lookup. -/
theorem lookupPos_erasePos (symbol : String) (ps : List (String × Position)) :
    lookupPos symbol (erasePos symbol ps) = none := by
  induction ps with
  | nil => rfl
  | cons kv rest ih =>
    by_cases h : kv.1 = symbol
    · simpa [erasePos, List.filter_cons, h] using ih
    · simpa [erasePos, List.filter_cons, h, lookupPos] using ih

/-! Claim theorems. -/

/-- C1: the specification requires `highest_pnl_pct` to be raised to
max(highest_pnl_pct, pnl_pct) on every risk-check cycle before the trailing
comparison; the code never writes the field.  First conjunct: no
mark-to-market update ever changes the watermark of any position.  The
remaining conjuncts evaluate the failing input: a long position opened at
price 100 with margin 100 and then marked at price 110 shows a PnL-on-margin
percentage of 10, while its stored watermark is still 0 instead of
max(0, 10) = 10. -/
theorem highest_pnl_pct_never_updated :
    (∀ (p : Position) (mp : Option ℚ),
      (updPos p mp).highest_pnl_pct = p.highest_pnl_pct) ∧
    ((lookupPos "BTC/USDT"
        (update_open_positions
          (openPosition ⟨1000, [], [], []⟩ "BTC/USDT" "buy" 1 100 10 100
            "entry signal" 2 0)
          [("BTC/USDT", 110)] 1).positions).map pnlPct = some 10) ∧
    ((lookupPos "BTC/USDT"
        (update_open_positions
          (openPosition ⟨1000, [], [], []⟩ "BTC/USDT" "buy" 1 100 10 100
            "entry signal" 2 0)
          [("BTC/USDT", 110)] 1).positions).map Position.highest_pnl_pct =
      some 0) := by
  refine ⟨updPos_highest, ?_, ?_⟩
  · norm_num [openPosition, lookupPos, lookupPrice, update_open_positions,
      saveState, updPos, calcPnl, pnlPct]
    decide
  · norm_num [openPosition, lookupPos, lookupPrice, update_open_positions,
      saveState, updPos, calcPnl, pnlPct]

/-- C2: once the trailing stop is armed for a position (trailing enabled and
the stored watermark at or above the configured trigger), no later cycle of
that position's life — after any further sequence of mark-to-market
updates — can close it through the static ATR stop or the fallback
percentage stop. -/
theorem trailing_armed_supersedes_static (cfg : RiskConfig) (p : Position)
    (marks : List (Option ℚ))
    (hEnable : cfg.enableTrailingStop = true)
    (hArmed : cfg.trailingStopTriggerPct ≤ p.highest_pnl_pct) :
    (checkPosition cfg (applyMarks p marks)).map CloseOrder.rule ≠
      some CloseRule.staticAtr ∧
    (checkPosition cfg (applyMarks p marks)).map CloseOrder.rule ≠
      some CloseRule.fallback := by
  have hh : (applyMarks p marks).highest_pnl_pct = p.highest_pnl_pct :=
    applyMarks_highest p marks
  have hactive : (cfg.enableTrailingStop = true) ∧
      cfg.trailingStopTriggerPct ≤ (applyMarks p marks).highest_pnl_pct := by
    exact ⟨hEnable, hh ▸ hArmed⟩
  rw [checkPosition]
  split_ifs <;> simp_all
  constructor <;> intro x hx <;> split_ifs at hx <;> cases hx <;> simp

/-- Witness for C2 at a concrete armed position: after a further mark at
price 90 the issued close is not a static or fallback stop. -/
theorem trailing_armed_supersedes_static_witness :
    (checkPosition ⟨25, true, 3, 1, 2, 15⟩
        (applyMarks ⟨"buy", 100, 100, 1, 10, 100, 5, 2, 4⟩ [some 90])).map
        CloseOrder.rule ≠ some CloseRule.staticAtr ∧
    (checkPosition ⟨25, true, 3, 1, 2, 15⟩
        (applyMarks ⟨"buy", 100, 100, 1, 10, 100, 5, 2, 4⟩ [some 90])).map
        CloseOrder.rule ≠ some CloseRule.fallback :=
  trailing_armed_supersedes_static ⟨25, true, 3, 1, 2, 15⟩
    ⟨"buy", 100, 100, 1, 10, 100, 5, 2, 4⟩ [some 90] rfl (by norm_num)

/-- C4: the invariant-violation operations are silent no-ops: opening a
position for a symbol that already has one, opening with requested margin
exceeding the available balance, and closing a symbol with no open position
each return the state unchanged — balance, positions map, equity history and
trade log included, so nothing is persisted and no trade-log event is
appended. -/
theorem invariant_violations_are_noops (st : SimState) (symbol side : String)
    (quantity price : ℚ) (leverage : Nat) (amount : ℚ) (reason : String)
    (atr : ℚ) (now : Nat) (price2 : ℚ) (reason2 : String) (now2 : Nat) :
    (lookupPos symbol st.positions ≠ none →
      openPosition st symbol side quantity price leverage amount reason atr now = st) ∧
    (st.balance < amount →
      openPosition st symbol side quantity price leverage amount reason atr now = st) ∧
    (lookupPos symbol st.positions = none →
      closePosition st symbol price2 reason2 now2 = st) := by
  refine ⟨?_, ?_, ?_⟩
  · intro h
    unfold openPosition
    cases hl : lookupPos symbol st.positions with
    | some p => rfl
    | none => exact absurd hl h
  · intro h
    unfold openPosition
    cases hl : lookupPos symbol st.positions with
    | some p => rfl
    | none => simp [h]
  · intro h
    unfold closePosition
    rw [h]

/-- Witness state for C4: 1000 in balance and one open BTC/USDT position. -/
def witnessState : SimState :=
  ⟨1000,
    [("BTC/USDT", ⟨"buy", 100, 110, 1, 10, 100, 10, 2, 0⟩)],
    [(0, 1110)],
    []⟩

/-- Witness for C4 at concrete inputs: re-opening BTC/USDT is a no-op,
opening ETH/USDT with margin 5000 against balance 1000 is a no-op, and
closing the missing ETH/USDT position is a no-op. -/
theorem invariant_violations_are_noops_witness :
    openPosition witnessState "BTC/USDT" "buy" 1 100 10 100 "again" 2 7 =
      witnessState ∧
    openPosition witnessState "ETH/USDT" "buy" 1 100 10 5000 "too big" 2 7 =
      witnessState ∧
    closePosition witnessState "ETH/USDT" 100 "missing" 7 = witnessState := by
  refine ⟨?_, ?_, ?_⟩
  · exact (invariant_violations_are_noops witnessState "BTC/USDT" "buy" 1 100 10
      100 "again" 2 7 100 "missing" 7).1 (by decide)
  · exact (invariant_violations_are_noops witnessState "ETH/USDT" "buy" 1 100 10
      5000 "too big" 2 7 100 "missing" 7).2.1 (by norm_num [witnessState])
  · exact (invariant_violations_are_noops witnessState "ETH/USDT" "buy" 1 100 10
      5000 "too big" 2 7 100 "missing" 7).2.2 (by decide)

/-- C5: closing an existing position realizes
PnL = (exit − entry) × quantity × (+1 for a long `buy` position, −1 for a
short `sell` position), credits the balance by exactly margin + PnL, deletes
the position from the map, and appends a close event carrying the PnL and the
PnL-on-margin percentage (pnl / margin × 100). -/
theorem close_position_accounting (st : SimState) (symbol : String)
    (price : ℚ) (reason : String) (now : Nat) (pos : Position)
    (hpos : lookupPos symbol st.positions = some pos) (hm : 0 < pos.margin) :
    (pos.side = "buy" →
      (closePosition st symbol price reason now).balance =
        st.balance + pos.margin + (price - pos.entry_price) * pos.quantity) ∧
    (pos.side = "sell" →
      (closePosition st symbol price reason now).balance =
        st.balance + pos.margin + (pos.entry_price - price) * pos.quantity) ∧
    lookupPos symbol (closePosition st symbol price reason now).positions =
      none ∧
    (closePosition st symbol price reason now).trade_log =
      st.trade_log ++
        [LogEvent.closeTrade symbol reason pos.side pos.quantity pos.leverage
          pos.margin pos.entry_price price (calcPnl pos price)
          (calcPnl pos price / pos.margin * 100)] := by
  refine ⟨?_, ?_, ?_, ?_⟩
  · intro hside
    simp [closePosition, hpos, saveState, calcPnl, hside]
  · intro hside
    simp [closePosition, hpos, saveState, calcPnl, hside]
  · simp [closePosition, hpos, saveState, lookupPos_erasePos]
  · simp [closePosition, hpos, saveState, if_pos hm]

/-- Witness for C5: closing the long BTC/USDT position of the witness state
at exit price 110 credits 1000 + 100 + 10, removes the position, and logs the
close event with PnL 10 and PnL percentage 10. -/
theorem close_position_accounting_witness :
    (closePosition witnessState "BTC/USDT" 110 "take profit" 9).balance =
      1000 + 100 + (110 - 100) * 1 ∧
    lookupPos "BTC/USDT"
      (closePosition witnessState "BTC/USDT" 110 "take profit" 9).positions =
      none := by
  constructor
  · exact (close_position_accounting witnessState "BTC/USDT" 110 "take profit" 9
      ⟨"buy", 100, 110, 1, 10, 100, 10, 2, 0⟩ (by decide) (by norm_num)).1 rfl
  · exact (close_position_accounting witnessState "BTC/USDT" 110 "take profit" 9
      ⟨"buy", 100, 110, 1, 10, 100, 10, 2, 0⟩ (by decide) (by norm_num)).2.2.1

/-- C7: every state persist leaves the equity history no longer than the
fixed maximum of 1440 samples, and what is retained is a suffix — in
insertion order — of the previous history with the new sample appended
(FIFO eviction of the oldest samples). -/
theorem equity_history_bounded_fifo (st : SimState) (now : Nat) :
    (saveState st now).equity_history.length ≤ maxHistoryPoints ∧
    List.IsSuffix (saveState st now).equity_history
      (st.equity_history ++ [(now, totalEquity st)]) := by
  unfold saveState
  by_cases hl :
      maxHistoryPoints < (st.equity_history ++ [(now, totalEquity st)]).length
  · constructor
    · simp only [hl, if_true, List.length_drop]
      omega
    · simp only [hl, if_true]
      exact List.drop_suffix _ _
  · constructor
    · simp only [hl, if_false]
      omega
    · simp only [hl, if_false]
      exact List.suffix_refl _

/-- C6: in the per-cycle risk check, a well-formed open position whose
PnL-on-margin percentage is at least the configured take-profit percentage is
closed with a reason naming take-profit; the outcome does not depend on the
fields only the later rules read (current price, entry ATR, trailing
watermark), so no other exit rule is evaluated for the symbol that cycle; and
when take-profit does not fire but the armed trailing stop does, the trailing
close fires before any static or fallback stop is considered — the rules
apply strictly in the order take-profit, trailing stop, static stop, first
match wins. -/
theorem take_profit_first (cfg : RiskConfig) (p : Position)
    (hm : p.margin ≠ 0) (he : p.entry_price ≠ 0)
    (htp : cfg.takeProfitPct ≤ pnlPct p) :
    checkPosition cfg p = some ⟨CloseRule.takeProfit, tpReason (pnlPct p)⟩ ∧
    (∀ c a w : ℚ,
      checkPosition cfg
        { p with current_price := c, atr_at_entry := a, highest_pnl_pct := w } =
        checkPosition cfg p) ∧
    (∀ q : Position, q.margin ≠ 0 → q.entry_price ≠ 0 →
      pnlPct q < cfg.takeProfitPct →
      cfg.enableTrailingStop = true →
      cfg.trailingStopTriggerPct ≤ q.highest_pnl_pct →
      pnlPct q ≤ q.highest_pnl_pct - cfg.trailingStopDistancePct →
      checkPosition cfg q =
        some ⟨CloseRule.trailingStop, trailReason (pnlPct q) q.highest_pnl_pct⟩) := by
  refine ⟨?_, ?_, ?_⟩
  · simp [checkPosition, pnlPct, hm, he, htp] at htp ⊢
    simp [htp]
  · intro c a w
    simp [checkPosition, pnlPct, hm, he] at htp ⊢
    simp [htp]
  · intro q hmq heq hlt henable htrig hfloor
    have hnot : ¬ cfg.takeProfitPct ≤ pnlPct q := not_le.mpr hlt
    simp [pnlPct] at hnot htrig hfloor
    simp [checkPosition, hmq, heq, hnot, henable, htrig, hfloor]
    rw [if_neg (not_le.mpr hnot)]
    rfl

/-- Witness for C6: take-profit threshold 25, a long position with margin 100
and unrealized PnL 30 (PnL percentage 30) is closed by take-profit. -/
theorem take_profit_first_witness :
    checkPosition ⟨25, false, 3, 1, 2, 15⟩ ⟨"buy", 100, 130, 1, 10, 100, 30, 2, 0⟩ =
      some ⟨CloseRule.takeProfit,
        tpReason (pnlPct ⟨"buy", 100, 130, 1, 10, 100, 30, 2, 0⟩)⟩ :=
  (take_profit_first ⟨25, false, 3, 1, 2, 15⟩ ⟨"buy", 100, 130, 1, 10, 100, 30, 2, 0⟩
    (by norm_num) (by norm_num) (by norm_num [pnlPct])).1

/-- C9: with a non-flat position the engine's only possible commands are
`close` and `hold`, whatever the market snapshot, balance, thresholds, or
cooldown flag. -/
theorem in_position_only_hold_or_close (adxRangeThreshold adxTrendThreshold : ℚ)
    (m : MarketData) (position_side : String) (available_balance : ℚ)
    (cooldown_status : Bool) (hside : position_side ≠ "flat") :
    (decide_action adxRangeThreshold adxTrendThreshold m position_side
        available_balance cooldown_status).command = "close" ∨
    (decide_action adxRangeThreshold adxTrendThreshold m position_side
        available_balance cooldown_status).command = "hold" := by
  unfold decide_action
  rw [if_pos hside]
  split_ifs <;>
    first
      | exact Or.inl rfl
      | exact Or.inr rfl

/-- Witness for C9: holding a long position in a bullish snapshot yields
close or hold. -/
theorem in_position_only_hold_or_close_witness :
    (decide_action 20 25 ⟨100, 90, 50, 30, 95, 105, 100, 100⟩ "long" 1000
        false).command = "close" ∨
    (decide_action 20 25 ⟨100, 90, 50, 30, 95, 105, 100, 100⟩ "long" 1000
        false).command = "hold" :=
  in_position_only_hold_or_close 20 25 ⟨100, 90, 50, 30, 95, 105, 100, 100⟩
    "long" 1000 false (by decide)

/-- C3 (spec-modelled): for a flat position with no active cooldown whose
price lies within the configured fractional band of the trend average, the
consolidated engine holds — it never opens a position. -/
theorem no_trade_zone_forces_hold (strategy : SpecStrategy)
    (snap : SpecSnapshot) (available_balance : ℚ)
    (hband : abs (snap.current_price - snap.trend_average) /
        snap.trend_average < strategy.no_trade_zone_pct) :
    (decideActionSpec strategy snap "flat" available_balance false).command =
      "hold" := by
  simp [decideActionSpec, hband, holdD]

/-- Witness for C3: band width 0.5 percent, price 100.2 against trend average
100 (0.2 percent away) holds. -/
theorem no_trade_zone_forces_hold_witness :
    (decideActionSpec ⟨1/200, 30, 50, 50, 70, true, 20, 10⟩
        ⟨501/5, 100, 45, 120, 100⟩ "flat" 1000 false).command = "hold" :=
  no_trade_zone_forces_hold ⟨1/200, 30, 50, 50, 70, true, 20, 10⟩
    ⟨501/5, 100, 45, 120, 100⟩ 1000
    (by rw [show (501/5 : ℚ) - 100 = 1/5 by norm_num,
          abs_of_pos (by norm_num)]
        norm_num)

/-- A required parameter is missing or violates its safety bound. -/
def paramMissingOrOut (v : Option ℚ) (lim : Limits) : Prop :=
  v = none ∨ ∃ x, v = some x ∧ (x < lim.lo ∨ lim.hi < x)

/-- A required parameter is present and inside its safety bound. -/
def paramInBounds (v : Option ℚ) (lim : Limits) : Prop :=
  ∃ x, v = some x ∧ lim.lo ≤ x ∧ x ≤ lim.hi

/-- A missing or out-of-bound parameter fails its check. -/
theorem paramOk_eq_false (v : Option ℚ) (lim : Limits)
    (h : paramMissingOrOut v lim) : paramOk v lim = false := by
  rcases h with rfl | ⟨x, rfl, hx⟩
  · rfl
  · simp only [paramOk, decide_eq_false_iff_not]
    rintro ⟨h1, h2⟩
    rcases hx with h | h
    · exact absurd h1 (not_le.mpr h)
    · exact absurd h2 (not_le.mpr h)

/-- A present in-bound parameter passes its check. -/
theorem paramOk_eq_true (v : Option ℚ) (lim : Limits)
    (h : paramInBounds v lim) : paramOk v lim = true := by
  rcases h with ⟨x, rfl, h1, h2⟩
  simp [paramOk, h1, h2]

/-- C8: a proposed strategy document with any of its eight required numeric
parameters missing or outside its hardcoded bound fails validation, and the
strategist cycle keeps the prior document — the proposal is discarded in
full; a proposal with every parameter present and in bounds passes
validation, and the resulting authoritative document is the proposal. -/
theorem strategy_validation_gate (current proposal : StrategyDoc) :
    ((paramMissingOrOut proposal.trade_parameters.default_leverage
        VALIDATION_LIMITS.default_leverage ∨
      paramMissingOrOut proposal.trade_parameters.trade_amount_pct_of_balance
        VALIDATION_LIMITS.trade_amount_pct_of_balance ∨
      paramMissingOrOut proposal.long_conditions.rsi_entry_min
        VALIDATION_LIMITS.rsi_long_entry_min ∨
      paramMissingOrOut proposal.long_conditions.rsi_entry_max
        VALIDATION_LIMITS.rsi_long_entry_max ∨
      paramMissingOrOut proposal.long_conditions.rsi_exit_extreme
        VALIDATION_LIMITS.rsi_exit_extreme_long ∨
      paramMissingOrOut proposal.short_conditions.rsi_entry_min
        VALIDATION_LIMITS.rsi_short_entry_min ∨
      paramMissingOrOut proposal.short_conditions.rsi_entry_max
        VALIDATION_LIMITS.rsi_short_entry_max ∨
      paramMissingOrOut proposal.short_conditions.rsi_exit_extreme
        VALIDATION_LIMITS.rsi_exit_extreme_short) →
      validate_strategy proposal = false ∧
        applyStrategistUpdate current proposal = current) ∧
    ((paramInBounds proposal.trade_parameters.default_leverage
        VALIDATION_LIMITS.default_leverage ∧
      paramInBounds proposal.trade_parameters.trade_amount_pct_of_balance
        VALIDATION_LIMITS.trade_amount_pct_of_balance ∧
      paramInBounds proposal.long_conditions.rsi_entry_min
        VALIDATION_LIMITS.rsi_long_entry_min ∧
      paramInBounds proposal.long_conditions.rsi_entry_max
        VALIDATION_LIMITS.rsi_long_entry_max ∧
      paramInBounds proposal.long_conditions.rsi_exit_extreme
        VALIDATION_LIMITS.rsi_exit_extreme_long ∧
      paramInBounds proposal.short_conditions.rsi_entry_min
        VALIDATION_LIMITS.rsi_short_entry_min ∧
      paramInBounds proposal.short_conditions.rsi_entry_max
        VALIDATION_LIMITS.rsi_short_entry_max ∧
      paramInBounds proposal.short_conditions.rsi_exit_extreme
        VALIDATION_LIMITS.rsi_exit_extreme_short) →
      validate_strategy proposal = true ∧
        applyStrategistUpdate current proposal = proposal) := by
  constructor
  · intro h
    have hv : validate_strategy proposal = false := by
      rcases h with h | h | h | h | h | h | h | h <;>
        simp [validate_strategy, paramOk_eq_false _ _ h]
    refine ⟨hv, ?_⟩
    unfold applyStrategistUpdate
    by_cases hpc : proposal = current
    · simp [hpc]
    · simp [hpc, hv]
  · rintro ⟨h1, h2, h3, h4, h5, h6, h7, h8⟩
    have hv : validate_strategy proposal = true := by
      simp [validate_strategy, paramOk_eq_true _ _ h1, paramOk_eq_true _ _ h2,
        paramOk_eq_true _ _ h3, paramOk_eq_true _ _ h4, paramOk_eq_true _ _ h5,
        paramOk_eq_true _ _ h6, paramOk_eq_true _ _ h7, paramOk_eq_true _ _ h8]
    refine ⟨hv, ?_⟩
    unfold applyStrategistUpdate
    by_cases hpc : proposal = current
    · simp [hpc]
    · simp [hpc, hv]

/-- Witness strategy document with every parameter in bounds. -/
def witnessGoodStrategy : StrategyDoc :=
  ⟨⟨some 20, some 10⟩, ⟨some 30, some 50, some 75⟩, ⟨some 50, some 70, some 25⟩,
    "hybrid scalper v2"⟩

/-- Witness strategy document whose default leverage 100 exceeds the bound
of 75. -/
def witnessBadStrategy : StrategyDoc :=
  ⟨⟨some 100, some 10⟩, ⟨some 30, some 50, some 75⟩, ⟨some 50, some 70, some 25⟩,
    "hybrid scalper v3"⟩

/-- Witness for C8: the out-of-bound proposal is rejected and the prior
document kept; the in-bound proposal passes and is written. -/
theorem strategy_validation_gate_witness :
    validate_strategy witnessBadStrategy = false ∧
    applyStrategistUpdate witnessGoodStrategy witnessBadStrategy =
      witnessGoodStrategy ∧
    validate_strategy witnessGoodStrategy = true ∧
    applyStrategistUpdate witnessBadStrategy witnessGoodStrategy =
      witnessGoodStrategy := by
  have hbad := (strategy_validation_gate witnessGoodStrategy witnessBadStrategy).1
    (Or.inl (Or.inr ⟨100, rfl, Or.inr (by norm_num [VALIDATION_LIMITS])⟩))
  have hgood := (strategy_validation_gate witnessBadStrategy witnessGoodStrategy).2
    ⟨⟨20, rfl, by norm_num [VALIDATION_LIMITS]⟩,
      ⟨10, rfl, by norm_num [VALIDATION_LIMITS]⟩,
      ⟨30, rfl, by norm_num [VALIDATION_LIMITS]⟩,
      ⟨50, rfl, by norm_num [VALIDATION_LIMITS]⟩,
      ⟨75, rfl, by norm_num [VALIDATION_LIMITS]⟩,
      ⟨50, rfl, by norm_num [VALIDATION_LIMITS]⟩,
      ⟨70, rfl, by norm_num [VALIDATION_LIMITS]⟩,
      ⟨25, rfl, by norm_num [VALIDATION_LIMITS]⟩⟩
  exact ⟨hbad.1, hbad.2, hgood.1, hgood.2⟩

/-- C10: the leverage actually applied by the trade executor is the parsed
`Nx` value clamped to the closed interval [5, 25]; a command with no
leverage group uses 20; and since the strategist's bound table allows a
default leverage up to 75, a configured value above 25 — producing a command
such as `long 75x` — is silently reduced to 25 at execution time. -/
theorem leverage_clamped :
    (∀ (command : String) (l : Nat), findLeverage command = some l →
      parseLeverage command = max 5 (min 25 l) ∧
      5 ≤ parseLeverage command ∧ parseLeverage command ≤ 25) ∧
    (∀ command : String, findLeverage command = none →
      parseLeverage command = 20) ∧
    VALIDATION_LIMITS.default_leverage.hi = 75 ∧
    findLeverage "long 75x" = some 75 ∧
    parseLeverage "long 75x" = 25 := by
  refine ⟨?_, ?_, rfl, by decide, by decide⟩
  · intro command l h
    have hp : parseLeverage command = max 5 (min 25 l) := by
      unfold parseLeverage
      rw [h]
    refine ⟨hp, ?_, ?_⟩
    · rw [hp]
      exact le_max_left _ _
    · rw [hp]
      exact max_le (by norm_num) (min_le_left _ _)
  · intro command h
    unfold parseLeverage
    rw [h]

/-- Witness for C10: `long 30x` executes with leverage 25, `close` with the
default 20. -/
theorem leverage_clamped_witness :
    parseLeverage "long 30x" = 25 ∧ parseLeverage "close" = 20 := by
  constructor
  · exact ((leverage_clamped.1 "long 30x" 30 (by decide)).1).trans (by decide)
  · exact leverage_clamped.2.1 "close" (by decide)

end TradingBot
